import Mathlib

/-!
Shallow embedding of `src/main.ts` of the 3d-character-with-controls
repository: the input mapper (arrow-key table plus lowercasing), the
locomotion controller (`startWalking` / `stopWalking`), the model-load
callback, and the per-frame render step (`animate`).

Conventions of the embedding:
* JS numbers that matter here are exact decimals, so they are modelled as `ℚ`.
* A nullable JS variable (`number | null`, the model reference, the two
  animation actions) is an `Option` / `Bool` flag.  `foxModel`, `mixer`,
  `idleAnimation` and `walkAnimation` are all assigned together in the one
  GLTF load callback, so a single `foxModel : Bool` flag models "the load
  callback has run".
* Yaw angles are stored as the rational multiple of π that the source
  writes (`Math.PI * 0.5` ↦ `1/2`, `Math.PI` ↦ `1`, `0` ↦ `0`).
* A `gsap.to(foxModel.rotation, {duration, y})` call and an
  `AnimationAction.crossFadeFrom` call are side effects fired by
  `startWalking` / `stopWalking`; each call of the controller reports them
  in its `CallResult` (`none` when the source makes no such call).
* The projection of the cube position through the camera
  (`screenPosition.project(camera)`) is linear algebra external to the
  logic under verification; the frame step takes the projected normalized
  device coordinates `sx`, `sy` as parameters, exactly where the source
  reads `screenPosition.x` / `screenPosition.y`.
-/

/-- A 3D position, the x/y/z fields of a `THREE.Vector3`. -/
structure Vec3 where
  x : ℚ
  y : ℚ
  z : ℚ
deriving Repr, DecidableEq

/-- The two animation clips loaded in the GLTF callback
(`gltf.animations[0]` = idle, `gltf.animations[1]` = walk). -/
inductive Clip where
  | idle
  | walk
deriving Repr, DecidableEq

/-- The CSS transform last written to the `#info-button-1` element:
untouched, `translateX(x) translateY(y)`, or `scale(0, 0)`. -/
inductive MarkerTransform where
  | unset
  | translate (x y : ℚ)
  | scaleZero
deriving Repr, DecidableEq

/-- A `gsap.to(foxModel.rotation, { duration, y })` call: tween of the yaw
toward `y` (a rational multiple of π) over `duration` seconds. -/
structure GsapTween where
  duration : ℚ
  y : ℚ
deriving Repr, DecidableEq

/-- A `fadeIn.crossFadeFrom(fadeOut, duration, warp)` call on an
animation action. -/
structure CrossFadeCall where
  fadeOut : Clip
  fadeIn : Clip
  duration : ℚ
  warp : Bool
deriving Repr, DecidableEq

/-- The module-level mutable state of `main.ts` that the claims depend on:
the loaded-model flag, the two velocity axes, the model yaw (a rational
multiple of π), whether each animation action is playing, the model and
camera positions, and the proximity-marker DOM state. -/
structure SceneState where
  foxModel : Bool
  movingOnZ : Option ℚ
  movingOnX : Option ℚ
  rotationY : ℚ
  idlePlaying : Bool
  walkPlaying : Bool
  foxPos : Vec3
  cameraPos : Vec3
  markerVisible : Bool
  markerTransform : MarkerTransform
deriving Repr, DecidableEq

/-- Result of one `startWalking` / `stopWalking` call: the new state plus
the rotation tween and cross-fade side effects the call fired, if any. -/
structure CallResult where
  state : SceneState
  tween : Option GsapTween
  crossFade : Option CrossFadeCall
deriving Repr, DecidableEq

/-- `const movingSpeed = 0.012`. -/
def movingSpeed : ℚ := 0.012

/-- `const arrowKeysToWASDMap = { ArrowUp: "w", ArrowDown: "s",
ArrowRight: "d", ArrowLeft: "a" }`. -/
def arrowKeysToWASDMap : List (String × String) :=
  [("ArrowUp", "w"), ("ArrowDown", "s"), ("ArrowRight", "d"), ("ArrowLeft", "a")]

/-- `const arrowKeys = Object.keys(arrowKeysToWASDMap)`. -/
def arrowKeys : List String := arrowKeysToWASDMap.map Prod.fst

/-- JS `String.prototype.toLowerCase`, embedded char-wise with
`Char.toLower` (the two agree on the ASCII key identifiers this program
receives). -/
def toLowerCase (s : String) : String := String.mk (s.data.map Char.toLower)

/-- The key normalization in both keyboard handlers:
`arrowKeys.includes(event.key) ? arrowKeysToWASDMap[event.key]
: event.key.toLowerCase()`. -/
def mapKey (eventKey : String) : String :=
  if arrowKeys.contains eventKey then
    (arrowKeysToWASDMap.lookup eventKey).getD eventKey
  else
    toLowerCase eventKey

/-- `cube.position.set(3, 0.5, 3)`. -/
def cubePosition : Vec3 := ⟨3, 1/2, 3⟩

/-- JS truthiness of a `number | null` value, as tested by
`if (movingOnZ)` / `if (movingOnX)` in the render loop: truthy iff
non-null and nonzero. -/
def truthy : Option ℚ → Bool
  | none => false
  | some v => v != 0

/-- The GLTF load callback, restricted to the state modelled here:
sets the model reference (and the mixer and both actions with it),
plays the idle clip, and moves the model down one unit before
`position.add(new Vector3(0, 1, 0))` mutates it back up (the source
uses the mutating `add` to build `controls.target`, so the net position
change is zero). -/
def loadModel (st : SceneState) : SceneState :=
  { st with
    foxModel := true
    idlePlaying := true
    foxPos := { st.foxPos with y := st.foxPos.y - 1 + 1 } }

/-- `function startWalking(key)` of `main.ts`. -/
def startWalking (key : String) (st : SceneState) : CallResult :=
  let isMovingForward := key == "w"
  let isMovingRight := key == "d"
  let isMovingLeft := key == "a"
  let isMovingBackward := key == "s"
  if (!isMovingBackward && !isMovingForward && !isMovingLeft && !isMovingRight)
      || !st.foxModel then
    ⟨st, none, none⟩
  else
    { state :=
        { st with
          movingOnZ :=
            if isMovingForward then some movingSpeed
            else if isMovingBackward then some (-movingSpeed)
            else none
          movingOnX :=
            if isMovingRight then some (-movingSpeed)
            else if isMovingLeft then some movingSpeed
            else none
          -- idleAnimation.stop(); walkAnimation.reset(); walkAnimation.play()
          idlePlaying := false
          walkPlaying := true }
      tween :=
        if !isMovingForward then
          some ⟨1/2, if isMovingLeft then 1/2 else if isMovingRight then -(1/2) else 1⟩
        else none
      crossFade := some ⟨Clip.idle, Clip.walk, 1/2, true⟩ }

/-- `function stopWalking(key)` of `main.ts`. -/
def stopWalking (key : String) (st : SceneState) : CallResult :=
  let wasMovingForward := key == "w"
  let wasMovingRight := key == "d"
  let wasMovingLeft := key == "a"
  let wasMovingBackward := key == "s"
  if (!wasMovingBackward && !wasMovingForward && !wasMovingLeft && !wasMovingRight)
      || !st.foxModel then
    ⟨st, none, none⟩
  else
    { state :=
        { st with
          movingOnX := none
          movingOnZ := none
          -- walkAnimation.stop(); idleAnimation.reset(); idleAnimation.play()
          walkPlaying := false
          idlePlaying := true }
      tween := if !wasMovingForward then some ⟨1/2, 0⟩ else none
      crossFade := some ⟨Clip.walk, Clip.idle, 1/2, true⟩ }
  -- the boolean names in both lets mark that here `wasMovingRight` and
  -- `wasMovingLeft` are computed but only `wasMovingForward` is read

/-- The `keydown` handler: ignores auto-repeat, otherwise normalizes the
key and calls `startWalking`. -/
def keydownHandler (isRepeat : Bool) (eventKey : String) (st : SceneState) : CallResult :=
  if isRepeat then ⟨st, none, none⟩
  else startWalking (mapKey eventKey) st

/-- The `keyup` handler: ignores auto-repeat, otherwise normalizes the
key and calls `stopWalking`. -/
def keyupHandler (isRepeat : Bool) (eventKey : String) (st : SceneState) : CallResult :=
  if isRepeat then ⟨st, none, none⟩
  else stopWalking (mapKey eventKey) st

/-- One pass of the `animate` render callback, restricted to the state
modelled here.  `width`/`height` are `sizes.width`/`sizes.height`;
`sx`/`sy` are the normalized device coordinates of the cube after
`screenPosition.project(camera)`; `deltaTime` is the frame delta fed to
`mixer.update` (the mixer timeline itself is outside the embedded state
and the position updates never read it, as the theorems show). -/
def animateStep (width height sx sy deltaTime : ℚ) (st : SceneState) : SceneState :=
  let translateX := sx * width * (1/2)
  let translateY := -sy * height * (1/2)
  let _ := deltaTime
  if st.foxModel then
    -- const difference = foxModel.position.clone().sub(cube.position)
    let diffX := st.foxPos.x - cubePosition.x
    let diffZ := st.foxPos.z - cubePosition.z
    let st1 :=
      if |diffX| < 3 ∧ |diffZ| < 3 then
        { st with
          markerVisible := true
          markerTransform := MarkerTransform.translate translateX translateY }
      else
        { st with
          markerTransform := MarkerTransform.scaleZero
          markerVisible := false }
    let st2 :=
      if truthy st1.movingOnZ then
        { st1 with
          foxPos := { st1.foxPos with z := st1.foxPos.z + st1.movingOnZ.getD 0 }
          cameraPos := { st1.cameraPos with z := st1.cameraPos.z + st1.movingOnZ.getD 0 } }
      else st1
    if truthy st2.movingOnX then
      { st2 with
        foxPos := { st2.foxPos with x := st2.foxPos.x + st2.movingOnX.getD 0 }
        cameraPos := { st2.cameraPos with x := st2.cameraPos.x + st2.movingOnX.getD 0 } }
    else st2
  else st

/-- The events that mutate the embedded state: the asynchronous model
load, an accepted key press, an accepted key release, and a rendered
frame. -/
inductive Call where
  | load
  | start (key : String)
  | stop (key : String)
  | frame (width height sx sy deltaTime : ℚ)
deriving Repr, DecidableEq

/-- Apply one event to the state. -/
def applyCall (st : SceneState) : Call → SceneState
  | Call.load => loadModel st
  | Call.start key => (startWalking key st).state
  | Call.stop key => (stopWalking key st).state
  | Call.frame width height sx sy deltaTime => animateStep width height sx sy deltaTime st

/-- Run a sequence of events from a state. -/
def runCalls (calls : List Call) (st : SceneState) : SceneState :=
  calls.foldl applyCall st

/-- The module-level state right after the setup script runs, before the
GLTF load resolves: no model, both velocity axes null, yaw 0, neither
embedded action playing yet, model at the origin,
`camera.position.set(0, 2, -5)`, marker untouched. -/
def initState : SceneState :=
  { foxModel := false
    movingOnZ := none
    movingOnX := none
    rotationY := 0
    idlePlaying := false
    walkPlaying := false
    foxPos := ⟨0, 0, 0⟩
    cameraPos := ⟨0, 2, -5⟩
    markerVisible := false
    markerTransform := MarkerTransform.unset }

/-- A loaded state used to instantiate the universally quantified
theorems. -/
def sampleLoadedState : SceneState := loadModel initState

/-- A velocity axis only ever holds null, `+movingSpeed` or
`-movingSpeed`. -/
def axisOk (axis : Option ℚ) : Prop :=
  axis = none ∨ axis = some movingSpeed ∨ axis = some (-movingSpeed)

/-- The velocity part of the reachable-state invariant: both axes are
null-or-±speed and at most one is non-null. -/
def velInv (st : SceneState) : Prop :=
  axisOk st.movingOnZ ∧ axisOk st.movingOnX ∧
    (st.movingOnZ = none ∨ st.movingOnX = none)

/-! ## Helper lemmas -/

theorem movingSpeed_ne_zero : movingSpeed ≠ 0 := by norm_num [movingSpeed]

theorem neg_movingSpeed_ne_zero : -movingSpeed ≠ 0 := by norm_num [movingSpeed]

/-- With the model loaded, one frame of the render loop updates exactly
the marker fields (by the strict 3-unit proximity test) and adds each
truthy velocity axis to both the model and the camera position. -/
theorem animateStep_loaded (width height sx sy deltaTime : ℚ) (st : SceneState)
    (h : st.foxModel = true) :
    animateStep width height sx sy deltaTime st =
      { st with
        markerVisible :=
          decide (|st.foxPos.x - cubePosition.x| < 3 ∧ |st.foxPos.z - cubePosition.z| < 3)
        markerTransform :=
          if |st.foxPos.x - cubePosition.x| < 3 ∧ |st.foxPos.z - cubePosition.z| < 3 then
            MarkerTransform.translate (sx * width * (1/2)) (-sy * height * (1/2))
          else MarkerTransform.scaleZero
        foxPos :=
          { st.foxPos with
            x := st.foxPos.x + (if truthy st.movingOnX then st.movingOnX.getD 0 else 0)
            z := st.foxPos.z + (if truthy st.movingOnZ then st.movingOnZ.getD 0 else 0) }
        cameraPos :=
          { st.cameraPos with
            x := st.cameraPos.x + (if truthy st.movingOnX then st.movingOnX.getD 0 else 0)
            z := st.cameraPos.z + (if truthy st.movingOnZ then st.movingOnZ.getD 0 else 0) } } := by
  by_cases h1 : |st.foxPos.x - cubePosition.x| < 3 ∧ |st.foxPos.z - cubePosition.z| < 3 <;>
    by_cases h2 : truthy st.movingOnZ = true <;>
    by_cases h3 : truthy st.movingOnX = true <;>
    simp [animateStep, h, h1, h2, h3]

/-- Before the model loads, a frame of the render loop changes none of
the embedded state. -/
theorem animateStep_unloaded (width height sx sy deltaTime : ℚ) (st : SceneState)
    (h : st.foxModel = false) :
    animateStep width height sx sy deltaTime st = st := by
  simp [animateStep, h]

/-- The render loop never writes the velocity axes or the loaded flag. -/
theorem animateStep_preserves_velocity (width height sx sy deltaTime : ℚ)
    (st : SceneState) :
    (animateStep width height sx sy deltaTime st).movingOnZ = st.movingOnZ ∧
    (animateStep width height sx sy deltaTime st).movingOnX = st.movingOnX := by
  by_cases h : st.foxModel = true
  · rw [animateStep_loaded width height sx sy deltaTime st h]
    exact ⟨rfl, rfl⟩
  · rw [animateStep_unloaded width height sx sy deltaTime st (by simpa using h)]
    exact ⟨rfl, rfl⟩

/-- Every event preserves the velocity invariant. -/
theorem applyCall_velInv (st : SceneState) (c : Call) (hinv : velInv st) :
    velInv (applyCall st c) := by
  cases c with
  | load =>
    simpa [applyCall, loadModel, velInv] using hinv
  | start key =>
    show velInv (startWalking key st).state
    by_cases hf : st.foxModel = true
    · by_cases hw : key = "w"
      · subst hw; simp [startWalking, hf, velInv, axisOk]
      · by_cases ha : key = "a"
        · subst ha; simp [startWalking, hf, velInv, axisOk]
        · by_cases hs : key = "s"
          · subst hs; simp [startWalking, hf, velInv, axisOk]
          · by_cases hd : key = "d"
            · subst hd; simp [startWalking, hf, velInv, axisOk]
            · simpa [startWalking, hw, ha, hs, hd] using hinv
    · have hf2 : st.foxModel = false := by simpa using hf
      simpa [startWalking, hf2] using hinv
  | stop key =>
    show velInv (stopWalking key st).state
    by_cases hf : st.foxModel = true
    · by_cases hw : key = "w"
      · subst hw; simp [stopWalking, hf, velInv, axisOk]
      · by_cases ha : key = "a"
        · subst ha; simp [stopWalking, hf, velInv, axisOk]
        · by_cases hs : key = "s"
          · subst hs; simp [stopWalking, hf, velInv, axisOk]
          · by_cases hd : key = "d"
            · subst hd; simp [stopWalking, hf, velInv, axisOk]
            · simpa [stopWalking, hw, ha, hs, hd] using hinv
    · have hf2 : st.foxModel = false := by simpa using hf
      simpa [stopWalking, hf2] using hinv
  | frame width height sx sy deltaTime =>
    show velInv (animateStep width height sx sy deltaTime st)
    obtain ⟨hz, hx⟩ := animateStep_preserves_velocity width height sx sy deltaTime st
    exact ⟨hz ▸ hinv.1, hx ▸ hinv.2.1, by rw [hz, hx]; exact hinv.2.2⟩

/-- The velocity invariant holds along any run from any state satisfying
it. -/
theorem runCalls_velInv_from (calls : List Call) :
    ∀ st : SceneState, velInv st → velInv (runCalls calls st) := by
  induction calls with
  | nil => intro st h; exact h
  | cons c cs ih =>
    intro st h
    exact ih (applyCall st c) (applyCall_velInv st c h)

/-- The velocity invariant holds in every state reachable from the
initial state. -/
theorem runCalls_velInv (calls : List Call) : velInv (runCalls calls initState) :=
  runCalls_velInv_from calls initState (by simp [velInv, axisOk, initState])

/-- Under the axis invariant, the render loop's truthiness test on an
axis agrees with "the axis is set". -/
theorem axisOk_truthy (axis : Option ℚ) (h : axisOk axis) :
    truthy axis = axis.isSome := by
  rcases h with h | h | h <;>
    simp [h, truthy, movingSpeed_ne_zero, neg_movingSpeed_ne_zero]

/-! ## Claim theorems -/

/-- Claim C1: with the model loaded, `startWalking` sets the Z velocity
to `+movingSpeed` for "w", to `-movingSpeed` for "s" and to null for
"a"/"d", and the X velocity to `-movingSpeed` for "d", `+movingSpeed`
for "a" and null for "w"/"s"; both axes are overwritten whatever their
prior values, since the state `st` is arbitrary. -/
theorem claim_C1 (st : SceneState) (h : st.foxModel = true) :
    ((startWalking "w" st).state.movingOnZ = some movingSpeed ∧
      (startWalking "w" st).state.movingOnX = none) ∧
    ((startWalking "s" st).state.movingOnZ = some (-movingSpeed) ∧
      (startWalking "s" st).state.movingOnX = none) ∧
    ((startWalking "d" st).state.movingOnX = some (-movingSpeed) ∧
      (startWalking "d" st).state.movingOnZ = none) ∧
    ((startWalking "a" st).state.movingOnX = some movingSpeed ∧
      (startWalking "a" st).state.movingOnZ = none) := by
  simp [startWalking, h]

theorem claim_C1_witness :
    sampleLoadedState.foxModel = true ∧
    (startWalking "w" sampleLoadedState).state.movingOnZ = some movingSpeed ∧
    (startWalking "w" sampleLoadedState).state.movingOnX = none :=
  ⟨rfl, (claim_C1 sampleLoadedState rfl).1.1, (claim_C1 sampleLoadedState rfl).1.2⟩

/-- Claim C2: with the model loaded, `stopWalking` with any canonical
direction token clears both velocity axes, whatever the prior state
(`st` is arbitrary, so in particular the state left by holding another
key). -/
theorem claim_C2 (st : SceneState) (key : String) (h : st.foxModel = true)
    (hk : key = "w" ∨ key = "a" ∨ key = "s" ∨ key = "d") :
    (stopWalking key st).state.movingOnZ = none ∧
    (stopWalking key st).state.movingOnX = none := by
  rcases hk with hk | hk | hk | hk <;> subst hk <;> simp [stopWalking, h]

theorem claim_C2_witness :
    (startWalking "w" sampleLoadedState).state.foxModel = true ∧
    (stopWalking "a" (startWalking "w" sampleLoadedState).state).state.movingOnZ = none ∧
    (stopWalking "a" (startWalking "w" sampleLoadedState).state).state.movingOnX = none :=
  ⟨rfl,
    (claim_C2 (startWalking "w" sampleLoadedState).state "a" rfl (Or.inr (Or.inl rfl))).1,
    (claim_C2 (startWalking "w" sampleLoadedState).state "a" rfl (Or.inr (Or.inl rfl))).2⟩

/-- Claim C3: for a token outside the four canonical ones, and for any
token while the model is not loaded, both `startWalking` and
`stopWalking` return the state unchanged and fire no tween and no
cross-fade (the whole `CallResult` equals the no-op result, so the
velocities, the facing angle and the animation actions are untouched;
both functions are total, so no error is raised). -/
theorem claim_C3 (st : SceneState) (key : String) :
    (key ≠ "w" → key ≠ "a" → key ≠ "s" → key ≠ "d" →
      startWalking key st = ⟨st, none, none⟩ ∧
      stopWalking key st = ⟨st, none, none⟩) ∧
    (st.foxModel = false →
      startWalking key st = ⟨st, none, none⟩ ∧
      stopWalking key st = ⟨st, none, none⟩) := by
  constructor
  · intro hw ha hs hd
    constructor <;> simp [startWalking, stopWalking, hw, ha, hs, hd]
  · intro h
    constructor <;> simp [startWalking, stopWalking, h]

theorem claim_C3_witness :
    ("q" ≠ "w" ∧ initState.foxModel = false) ∧
    startWalking "q" sampleLoadedState = ⟨sampleLoadedState, none, none⟩ ∧
    startWalking "w" initState = ⟨initState, none, none⟩ :=
  ⟨⟨by decide, rfl⟩,
    ((claim_C3 sampleLoadedState "q").1 (by decide) (by decide) (by decide) (by decide)).1,
    ((claim_C3 initState "w").2 rfl).1⟩

/-- Claim C4: in every state reachable from the initial state by any
sequence of events (model load, `startWalking`, `stopWalking`, rendered
frames), at most one velocity axis is set: one of the two axes is
null. -/
theorem claim_C4 (calls : List Call) :
    (runCalls calls initState).movingOnZ = none ∨
    (runCalls calls initState).movingOnX = none :=
  (runCalls_velInv calls).2.2

/-- Claim C5: with the model loaded, `startWalking` fires a 0.5-second
yaw tween toward π/2 for "a", toward −π/2 for "d", toward π for "s" and
none for "w"; `stopWalking` fires a 0.5-second yaw tween toward 0 for
each non-forward canonical direction and none for "w" (yaw targets are
rational multiples of π). -/
theorem claim_C5 (st : SceneState) (h : st.foxModel = true) :
    (startWalking "a" st).tween = some ⟨1/2, 1/2⟩ ∧
    (startWalking "d" st).tween = some ⟨1/2, -(1/2)⟩ ∧
    (startWalking "s" st).tween = some ⟨1/2, 1⟩ ∧
    (startWalking "w" st).tween = none ∧
    (stopWalking "a" st).tween = some ⟨1/2, 0⟩ ∧
    (stopWalking "d" st).tween = some ⟨1/2, 0⟩ ∧
    (stopWalking "s" st).tween = some ⟨1/2, 0⟩ ∧
    (stopWalking "w" st).tween = none := by
  simp [startWalking, stopWalking, h]

theorem claim_C5_witness :
    sampleLoadedState.foxModel = true ∧
    (startWalking "a" sampleLoadedState).tween = some ⟨1/2, 1/2⟩ ∧
    (startWalking "w" sampleLoadedState).tween = none :=
  ⟨rfl, (claim_C5 sampleLoadedState rfl).1, (claim_C5 sampleLoadedState rfl).2.2.2.1⟩

/-- Claim C6: with the model loaded and any canonical direction, after
`startWalking` the walk action is playing, the idle action is stopped,
and a 0.5-second warped cross-fade from idle into walk was fired; after
`stopWalking` the idle action is playing, the walk action is stopped,
and a 0.5-second warped cross-fade from walk into idle was fired. -/
theorem claim_C6 (st : SceneState) (key : String) (h : st.foxModel = true)
    (hk : key = "w" ∨ key = "a" ∨ key = "s" ∨ key = "d") :
    ((startWalking key st).state.walkPlaying = true ∧
      (startWalking key st).state.idlePlaying = false ∧
      (startWalking key st).crossFade = some ⟨Clip.idle, Clip.walk, 1/2, true⟩) ∧
    ((stopWalking key st).state.idlePlaying = true ∧
      (stopWalking key st).state.walkPlaying = false ∧
      (stopWalking key st).crossFade = some ⟨Clip.walk, Clip.idle, 1/2, true⟩) := by
  rcases hk with hk | hk | hk | hk <;> subst hk <;>
    simp [startWalking, stopWalking, h]

theorem claim_C6_witness :
    sampleLoadedState.foxModel = true ∧
    (startWalking "a" sampleLoadedState).state.walkPlaying = true ∧
    (stopWalking "a" sampleLoadedState).crossFade =
      some ⟨Clip.walk, Clip.idle, 1/2, true⟩ :=
  ⟨rfl,
    (claim_C6 sampleLoadedState "a" rfl (Or.inr (Or.inl rfl))).1.1,
    (claim_C6 sampleLoadedState "a" rfl (Or.inr (Or.inl rfl))).2.2.2⟩

/-- Claim C7: with the model loaded, a frame shows the proximity marker
iff both axial distances from the cube are strictly under 3 (so exactly
3 hides it); when shown it is positioned at the projected screen
coordinates, otherwise its transform is `scale(0, 0)`. -/
theorem claim_C7 (width height sx sy deltaTime : ℚ) (st : SceneState)
    (h : st.foxModel = true) :
    ((animateStep width height sx sy deltaTime st).markerVisible = true ↔
      (|st.foxPos.x - cubePosition.x| < 3 ∧ |st.foxPos.z - cubePosition.z| < 3)) ∧
    ((|st.foxPos.x - cubePosition.x| < 3 ∧ |st.foxPos.z - cubePosition.z| < 3) →
      (animateStep width height sx sy deltaTime st).markerTransform =
        MarkerTransform.translate (sx * width * (1/2)) (-sy * height * (1/2))) ∧
    (¬(|st.foxPos.x - cubePosition.x| < 3 ∧ |st.foxPos.z - cubePosition.z| < 3) →
      (animateStep width height sx sy deltaTime st).markerTransform =
        MarkerTransform.scaleZero) := by
  by_cases hc : |st.foxPos.x - cubePosition.x| < 3 ∧ |st.foxPos.z - cubePosition.z| < 3 <;>
    simp [animateStep, h, hc] <;> split <;> simp <;> split <;> simp

theorem claim_C7_witness :
    sampleLoadedState.foxModel = true ∧
    (animateStep 800 600 0 0 0 sampleLoadedState).markerVisible = false := by
  refine ⟨rfl, ?_⟩
  have h := (claim_C7 800 600 0 0 0 sampleLoadedState rfl).1
  have hc : ¬(|sampleLoadedState.foxPos.x - cubePosition.x| < 3 ∧
      |sampleLoadedState.foxPos.z - cubePosition.z| < 3) := by
    norm_num [sampleLoadedState, loadModel, initState, cubePosition]
  simpa [hc] using h

/-- Claim C8: with the model loaded and the velocity axes holding their
only possible values (null or `±movingSpeed`), one frame adds exactly
the set axis value to both the model and the camera position on that
axis — independently of the frame's `deltaTime`, which is universally
quantified — leaving the camera-to-model offset unchanged; a null axis
leaves both positions unchanged on that axis (the `getD 0` default makes
both cases one equation). -/
theorem claim_C8 (width height sx sy deltaTime : ℚ) (st : SceneState)
    (h : st.foxModel = true) (hz : axisOk st.movingOnZ) (hx : axisOk st.movingOnX) :
    (animateStep width height sx sy deltaTime st).foxPos.z
        = st.foxPos.z + st.movingOnZ.getD 0 ∧
    (animateStep width height sx sy deltaTime st).cameraPos.z
        = st.cameraPos.z + st.movingOnZ.getD 0 ∧
    (animateStep width height sx sy deltaTime st).foxPos.x
        = st.foxPos.x + st.movingOnX.getD 0 ∧
    (animateStep width height sx sy deltaTime st).cameraPos.x
        = st.cameraPos.x + st.movingOnX.getD 0 ∧
    (animateStep width height sx sy deltaTime st).cameraPos.z
          - (animateStep width height sx sy deltaTime st).foxPos.z
        = st.cameraPos.z - st.foxPos.z ∧
    (animateStep width height sx sy deltaTime st).cameraPos.x
          - (animateStep width height sx sy deltaTime st).foxPos.x
        = st.cameraPos.x - st.foxPos.x := by
  rw [animateStep_loaded width height sx sy deltaTime st h]
  rw [axisOk_truthy st.movingOnZ hz, axisOk_truthy st.movingOnX hx]
  rcases hz with hz | hz | hz <;> rcases hx with hx | hx | hx <;>
    simp [hz, hx]

theorem claim_C8_witness :
    (startWalking "w" sampleLoadedState).state.foxModel = true ∧
    (animateStep 800 600 0 0 0 (startWalking "w" sampleLoadedState).state).foxPos.z
      = (startWalking "w" sampleLoadedState).state.foxPos.z
          + (startWalking "w" sampleLoadedState).state.movingOnZ.getD 0 :=
  ⟨rfl,
    (claim_C8 800 600 0 0 0 (startWalking "w" sampleLoadedState).state rfl
      (Or.inr (Or.inl rfl)) (Or.inl rfl)).1⟩

/-- Claim C9: the input mapper sends the four arrow keys through the
fixed table and lowercases every other key, passing it through
otherwise unchanged; both keyboard handlers feed exactly the mapped
token to the locomotion controller, and the mapper is total, so no
error is raised for unrecognized input. -/
theorem claim_C9 (key : String) (st : SceneState) :
    mapKey "ArrowUp" = "w" ∧ mapKey "ArrowDown" = "s" ∧
    mapKey "ArrowRight" = "d" ∧ mapKey "ArrowLeft" = "a" ∧
    (key ∉ arrowKeys → mapKey key = toLowerCase key) ∧
    keydownHandler false key st = startWalking (mapKey key) st ∧
    keyupHandler false key st = stopWalking (mapKey key) st := by
  refine ⟨by decide, by decide, by decide, by decide, ?_, rfl, rfl⟩
  intro hmem
  simp [mapKey, hmem]

theorem claim_C9_witness :
    ("Q" ∉ arrowKeys ∧ mapKey "Q" = toLowerCase "Q") ∧
    mapKey "ArrowUp" = "w" :=
  ⟨⟨by decide, (claim_C9 "Q" initState).2.2.2.2.1 (by decide)⟩,
    (claim_C9 "Q" initState).1⟩

/-- Claim C10: in every reachable state, each velocity axis is null,
`+movingSpeed` or `-movingSpeed` — never `some 0` or any other value —
so the render loop's truthiness test on an axis coincides with the axis
being set. -/
theorem claim_C10 (calls : List Call) :
    axisOk (runCalls calls initState).movingOnZ ∧
    axisOk (runCalls calls initState).movingOnX ∧
    (runCalls calls initState).movingOnZ ≠ some 0 ∧
    (runCalls calls initState).movingOnX ≠ some 0 ∧
    truthy (runCalls calls initState).movingOnZ
      = (runCalls calls initState).movingOnZ.isSome ∧
    truthy (runCalls calls initState).movingOnX
      = (runCalls calls initState).movingOnX.isSome := by
  obtain ⟨hz, hx, -⟩ := runCalls_velInv calls
  refine ⟨hz, hx, ?_, ?_, axisOk_truthy _ hz, axisOk_truthy _ hx⟩
  · rcases hz with hz | hz | hz <;>
      simp [hz, movingSpeed_ne_zero, neg_movingSpeed_ne_zero]
  · rcases hx with hx | hx | hx <;>
      simp [hx, movingSpeed_ne_zero, neg_movingSpeed_ne_zero]
